import Mathlib

/-!
Shallow embedding of `src/rewardv2.py` (AWS DeepRacer reward function).

Modelling conventions:
* Python floats are modelled as rationals (`ℚ`); all arithmetic in the source
  is elementary (+, -, *, abs, comparisons), so the rational model is exact.
  Decimal literals of the source are written as exact fractions
  (`1.2` becomes `12/10`, `1e-3` becomes `1/1000`, and so on), since
  `Rat.ofScientific` does not reduce in the kernel.
* `math.degrees(math.atan2(y, x))` is transcendental and has no computable
  exact model, so it is threaded through as an abstract parameter
  `a2d : ℚ → ℚ → ℚ` (first argument `y`, second `x`).  Every universally
  quantified theorem below holds for all such functions, hence in particular
  for the true atan2-in-degrees.
* `np.linalg.norm(v) < 1.1` is modelled as `v.1 ^ 2 + v.2 ^ 2 < (11/10) ^ 2`,
  which is equivalent for the nonnegative Euclidean norm.
* Python list indexing `waypoints[i]` is modelled with `List.getD` (default
  `(0, 0)`); all concrete inputs used below index in bounds.
-/

/-- Constant from `rewardv2.py` line 34 (`1.0`). -/
def DEFAULT_REWARD : ℚ := 1

/-- Constant from `rewardv2.py` line 35 (`1e-3`). -/
def LOWEST_REWARD : ℚ := 1 / 1000

/-- Constant from `rewardv2.py` line 36 (`8.0`). -/
def DIRECTION_THRESHOLD : ℚ := 8

/-- Constant from `rewardv2.py` line 37 (`20.0`). -/
def ABS_STEERING_THRESHOLD : ℚ := 20

/-- Constant from `rewardv2.py` line 38 (`75`). -/
def PROGRESS_THRESHOLD : ℚ := 75

/-- Constant from `rewardv2.py` line 39 (`1.2`). -/
def REINFORCE_FACTOR_1 : ℚ := 12 / 10

/-- Constant from `rewardv2.py` line 40 (`1.5`). -/
def REINFORCE_FACTOR_2 : ℚ := 15 / 10

/-- Constant from `rewardv2.py` line 41 (`1.3`). -/
def REINFORCE_FACTOR_3 : ℚ := 13 / 10

/-- Constant from `rewardv2.py` line 42 (`1.28`). -/
def REINFORCE_FACTOR_4 : ℚ := 128 / 100

/-- Constant from `rewardv2.py` line 43 (`0.8`). -/
def PUNISH_FACTOR_1 : ℚ := 8 / 10

/-- Constant from `rewardv2.py` line 44 (`0.5`). -/
def PUNISH_FACTOR_2 : ℚ := 5 / 10

/-- Constant from `rewardv2.py` line 45 (`0.6`). -/
def PUNISH_FACTOR_3 : ℚ := 6 / 10

/-- Constant from `rewardv2.py` line 46 (`0.73`). -/
def PUNISH_FACTOR_4 : ℚ := 73 / 100

/-- The telemetry-snapshot fields that `reward_function` reads
(`rewardv2.py` lines 49-62).  The unused `objects_*` arrays, `x`, `y`,
`track_length` and `closest_objects` fields are omitted: the source never
reads them. -/
structure Params where
  all_wheels_on_track : Bool
  closest_waypoints : ℕ × ℕ
  distance_from_center : ℚ
  is_crashed : Bool
  is_left_of_center : Bool
  is_offtrack : Bool
  is_reversed : Bool
  heading : ℚ
  progress : ℚ
  speed : ℚ
  steering_angle : ℚ
  steps : ℕ
  track_width : ℚ
  waypoints : List (ℚ × ℚ)

namespace RewardClass

/-- `RewardClass.chk_exception` (`rewardv2.py` lines 66-69).  Note that the
incoming `ret_reward` is ignored on both branches. -/
def chk_exception (ret_reward : ℚ) (exception : Bool) : ℚ :=
  if exception then LOWEST_REWARD else DEFAULT_REWARD

/-- `RewardClass.chk_on_track` (`rewardv2.py` lines 71-74).  The incoming
`ret_reward` is ignored on both branches. -/
def chk_on_track (ret_reward : ℚ) (on_track : Bool) : ℚ :=
  if on_track then DEFAULT_REWARD else LOWEST_REWARD

/-- `RewardClass.chk_center_distance` (`rewardv2.py` lines 76-89). -/
def chk_center_distance (ret_reward : ℚ) (width : ℚ) (distance : ℚ) : ℚ :=
  let marker_1 := 1 / 10 * width
  let marker_2 := 25 / 100 * width
  let marker_3 := 5 / 10 * width
  if distance ≤ marker_1 then ret_reward * REINFORCE_FACTOR_1
  else if distance ≤ marker_2 then ret_reward * PUNISH_FACTOR_1
  else if distance ≤ marker_3 then ret_reward * PUNISH_FACTOR_2
  else LOWEST_REWARD

/-- `RewardClass.chk_straight_line` (`rewardv2.py` lines 91-96). -/
def chk_straight_line (ret_reward : ℚ) (abs_steering : ℚ) (speed : ℚ) : ℚ :=
  if abs_steering < 1 / 10 ∧ speed ≥ 28 / 10 then ret_reward * REINFORCE_FACTOR_2
  else if abs_steering < 2 / 10 ∧ speed > 22 / 10 then ret_reward * REINFORCE_FACTOR_1
  else ret_reward

/-- The classification part of `RewardClass.is_speed_up`
(`rewardv2.py` lines 99-128): the boolean `speed_up` computed before the
final score adjustment.  `a2d` stands for `math.degrees(math.atan2 ..)`
(argument order `y`, `x`), and the comparison `distance < 1.1` of line 119 is
expressed on squared Euclidean distances.  Note that line 114 of the source
binds the normalized `diff = difference if difference < 180 else
360 - difference`, but line 116 then compares the raw, un-normalized
`difference` against `DIRECTION_THRESHOLD`; the normalized value is only
used in the short-horizon retry (line 127).  The embedding reproduces that
literally. -/
def speed_up_flag (a2d : ℚ → ℚ → ℚ) (waypoints : List (ℚ × ℚ))
    (closest_waypoints : ℕ × ℕ) (min_step future_step : ℕ) : Bool :=
  let next_waypoint := waypoints.getD closest_waypoints.2 (0, 0)
  let prev_waypoint := waypoints.getD closest_waypoints.1 (0, 0)
  let further_waypoint :=
    waypoints.getD (min (waypoints.length - 1) (closest_waypoints.2 + future_step)) (0, 0)
  let direction_degree :=
    a2d (prev_waypoint.2 - next_waypoint.2) (prev_waypoint.1 - next_waypoint.1)
  let future_degree :=
    a2d (prev_waypoint.2 - further_waypoint.2) (prev_waypoint.1 - further_waypoint.1)
  let difference := |direction_degree - future_degree|
  let distance_sq := (next_waypoint.1 - further_waypoint.1) ^ 2
    + (next_waypoint.2 - further_waypoint.2) ^ 2
  if difference < DIRECTION_THRESHOLD then true
  else if distance_sq < (11 / 10) ^ 2 then false
  else
    let further_waypoint2 :=
      waypoints.getD (min (waypoints.length - 1) (closest_waypoints.2 + min_step)) (0, 0)
    let future_degree2 :=
      a2d (prev_waypoint.2 - further_waypoint2.2) (prev_waypoint.1 - further_waypoint2.1)
    let difference2 := |direction_degree - future_degree2|
    let diff := if difference2 < 180 then difference2 else 360 - difference2
    decide (diff < DIRECTION_THRESHOLD)

/-- `RewardClass.is_speed_up` (`rewardv2.py` lines 98-133): the classification
(`speed_up_flag`) followed by the score adjustment of lines 129-133.
In the source `min_step` and `future_step` are default arguments `3` and `8`;
here they are explicit and the caller passes `3` and `8`. -/
def is_speed_up (a2d : ℚ → ℚ → ℚ) (ret_reward : ℚ) (waypoints : List (ℚ × ℚ))
    (closest_waypoints : ℕ × ℕ) (speed : ℚ) (min_step future_step : ℕ) : ℚ :=
  let speed_up := speed_up_flag a2d waypoints closest_waypoints min_step future_step
  if speed_up = true ∧ speed > 225 / 100 then ret_reward * REINFORCE_FACTOR_4
  else if speed_up = false ∧ speed < 14 / 10 then ret_reward * REINFORCE_FACTOR_1
  else ret_reward

/-- `RewardClass.chk_direction` (`rewardv2.py` lines 135-146); defined in the
source but never called from `reward_function`. -/
def chk_direction (a2d : ℚ → ℚ → ℚ) (ret_reward : ℚ) (waypoints : List (ℚ × ℚ))
    (closest_waypoints : ℕ × ℕ) (heading : ℚ) : ℚ :=
  let next_waypoint := waypoints.getD closest_waypoints.2 (0, 0)
  let prev_waypoint := waypoints.getD closest_waypoints.1 (0, 0)
  let direction_degree :=
    a2d (next_waypoint.2 - prev_waypoint.2) (next_waypoint.1 - prev_waypoint.1)
  let difference := |direction_degree - heading|
  if difference > DIRECTION_THRESHOLD then ret_reward * PUNISH_FACTOR_3
  else ret_reward

/-- `RewardClass.chk_steering` (`rewardv2.py` lines 148-151); defined in the
source but never called from `reward_function`. -/
def chk_steering (ret_reward : ℚ) (steering : ℚ) : ℚ :=
  if |steering| > ABS_STEERING_THRESHOLD then ret_reward * (9 / 10)
  else ret_reward

/-- `RewardClass.chk_steering_rate` (`rewardv2.py` lines 153-156); defined in
the source but never called from `reward_function`. -/
def chk_steering_rate (ret_reward : ℚ) (speed : ℚ) (steering : ℚ) : ℚ :=
  if speed > 25 / 10 - 4 / 10 * |steering| then ret_reward * PUNISH_FACTOR_1
  else ret_reward

/-- `RewardClass.chk_is_left_of_center` (`rewardv2.py` lines 158-163). -/
def chk_is_left_of_center (ret_reward : ℚ) (is_left_of_center : Bool) : ℚ :=
  if is_left_of_center then ret_reward * REINFORCE_FACTOR_1
  else ret_reward * PUNISH_FACTOR_1

/-- `RewardClass.chk_progress` (`rewardv2.py` lines 165-168). -/
def chk_progress (ret_reward : ℚ) (progress : ℚ) : ℚ :=
  if progress > PROGRESS_THRESHOLD then ret_reward * REINFORCE_FACTOR_3
  else ret_reward

/-- `RewardClass.chk_speed` (`rewardv2.py` lines 170-175); present in the
source but its call on line 187 is commented out. -/
def chk_speed (ret_reward : ℚ) (speed : ℚ) : ℚ :=
  if speed < 18 / 10 then ret_reward * PUNISH_FACTOR_4
  else if speed > 22 / 10 then ret_reward * REINFORCE_FACTOR_4
  else ret_reward

end RewardClass

/-- `reward_function` (`rewardv2.py` lines 177-189): the composed evaluator
chain.  `a2d` abstracts `math.degrees(math.atan2 ..)` as explained in the
file comment.  The successive `let reward := ..` rebindings mirror the
successive reassignments of the source. -/
def reward_function (a2d : ℚ → ℚ → ℚ) (params : Params) : ℚ :=
  let reward := DEFAULT_REWARD
  let reward := RewardClass.chk_on_track reward params.all_wheels_on_track
  let reward := RewardClass.chk_exception reward params.is_offtrack
  let reward := RewardClass.chk_exception reward params.is_crashed
  let reward := RewardClass.chk_exception reward params.is_reversed
  let reward := RewardClass.chk_center_distance reward params.track_width
    params.distance_from_center
  let reward := RewardClass.is_speed_up a2d reward params.waypoints
    params.closest_waypoints params.speed 3 8
  let reward := RewardClass.chk_is_left_of_center reward params.is_left_of_center
  let reward := RewardClass.chk_progress reward params.progress
  reward

/-- Modelled from the spec (section 4.2, step 3-4): the `speed_up`
classification with the absolute bearing difference normalized into
`[0, 180]` (by `360 - difference` when the raw difference exceeds `180`)
before EVERY comparison against `DIRECTION_THRESHOLD`, including the first
one.  This is the behaviour the spec describes; it differs from
`speed_up_flag` (the source) only in the first threshold test. -/
def speed_up_flag_normalized (a2d : ℚ → ℚ → ℚ) (waypoints : List (ℚ × ℚ))
    (closest_waypoints : ℕ × ℕ) (min_step future_step : ℕ) : Bool :=
  let next_waypoint := waypoints.getD closest_waypoints.2 (0, 0)
  let prev_waypoint := waypoints.getD closest_waypoints.1 (0, 0)
  let further_waypoint :=
    waypoints.getD (min (waypoints.length - 1) (closest_waypoints.2 + future_step)) (0, 0)
  let direction_degree :=
    a2d (prev_waypoint.2 - next_waypoint.2) (prev_waypoint.1 - next_waypoint.1)
  let future_degree :=
    a2d (prev_waypoint.2 - further_waypoint.2) (prev_waypoint.1 - further_waypoint.1)
  let difference := |direction_degree - future_degree|
  let distance_sq := (next_waypoint.1 - further_waypoint.1) ^ 2
    + (next_waypoint.2 - further_waypoint.2) ^ 2
  let diff := if difference < 180 then difference else 360 - difference
  if diff < DIRECTION_THRESHOLD then true
  else if distance_sq < (11 / 10) ^ 2 then false
  else
    let further_waypoint2 :=
      waypoints.getD (min (waypoints.length - 1) (closest_waypoints.2 + min_step)) (0, 0)
    let future_degree2 :=
      a2d (prev_waypoint.2 - further_waypoint2.2) (prev_waypoint.1 - further_waypoint2.1)
    let difference2 := |direction_degree - future_degree2|
    let diff2 := if difference2 < 180 then difference2 else 360 - difference2
    decide (diff2 < DIRECTION_THRESHOLD)

/-- The multiplicative factor applied by `is_speed_up` (lines 129-133 of the
source); `is_speed_up a2d r .. = r * speed_factor a2d ..`
(`is_speed_up_eq` below). -/
def speed_factor (a2d : ℚ → ℚ → ℚ) (waypoints : List (ℚ × ℚ))
    (closest_waypoints : ℕ × ℕ) (speed : ℚ) (min_step future_step : ℕ) : ℚ :=
  if RewardClass.speed_up_flag a2d waypoints closest_waypoints min_step future_step = true
      ∧ speed > 225 / 100 then REINFORCE_FACTOR_4
  else if RewardClass.speed_up_flag a2d waypoints closest_waypoints min_step future_step = false
      ∧ speed < 14 / 10 then REINFORCE_FACTOR_1
  else 1

/-- The multiplicative factor applied by `chk_is_left_of_center`. -/
def left_factor (is_left_of_center : Bool) : ℚ :=
  if is_left_of_center then REINFORCE_FACTOR_1 else PUNISH_FACTOR_1

/-- The multiplicative factor applied by `chk_progress`. -/
def progress_factor (progress : ℚ) : ℚ :=
  if progress > PROGRESS_THRESHOLD then REINFORCE_FACTOR_3 else 1

/-- A stand-in for `math.degrees(math.atan2 ..)` used to instantiate the
abstract `a2d` parameter in concrete evaluations.  For the snapshots below
the agent's speed is chosen so that the classification cannot change the
score, making the concrete reward independent of the bearing values. -/
def a2dZero : ℚ → ℚ → ℚ := fun _ _ => 0

/-- An atan2-degrees stand-in producing the bearings `179°` (for the
near-waypoint direction, whose `x`-argument is `-1` on `cexWaypoints`) and
`-177°` (for the far-waypoint direction): a pair of realizable bearings whose
raw difference `356` exceeds `180` and normalizes to `4 < DIRECTION_THRESHOLD`. -/
def a2dC4 : ℚ → ℚ → ℚ := fun _ x => if x = -1 then 179 else -177

/-- Shared waypoint geometry for concrete snapshots: three collinear
waypoints; with `closest_waypoints = (0, 1)` the look-ahead span from the
next to the furthest waypoint is `1 < 1.1`. -/
def cexWaypoints : List (ℚ × ℚ) := [(0, 0), (1, 0), (2, 0)]

/-- A hazard-free baseline snapshot: on track, centered, `speed = 2`
(chosen in `(1.4, 2.25)` so that `is_speed_up` leaves the score unchanged
whatever the classification), not left of center, `progress = 50`. -/
def baseParams : Params where
  all_wheels_on_track := true
  closest_waypoints := (0, 1)
  distance_from_center := 0
  is_crashed := false
  is_left_of_center := false
  is_offtrack := false
  is_reversed := false
  heading := 0
  progress := 50
  speed := 2
  steering_angle := 0
  steps := 10
  track_width := 1
  waypoints := cexWaypoints

/-- `baseParams` with `is_offtrack := true` (claim C1's hazard scenario). -/
def cexC1 : Params := { baseParams with is_offtrack := true }

/-- `baseParams` with `is_reversed := true` and `distance_from_center` in the
third band (claim C3's counterexample). -/
def cexC3 : Params := { baseParams with is_reversed := true, distance_from_center := 4 / 10 }

/-- First snapshot for claim C6's counterexample: reversed, distance `0.4`. -/
def cexC6a : Params := { baseParams with is_reversed := true, distance_from_center := 4 / 10 }

/-- Second snapshot for claim C6's counterexample: identical to `cexC6a`
except `distance_from_center = 0.6`, beyond the outermost band. -/
def cexC6b : Params := { cexC6a with distance_from_center := 6 / 10 }

/-- Snapshot with `track_width = 0` and positive center distance
(claim C8's scenario). -/
def cexC8 : Params := { baseParams with track_width := 0, distance_from_center := 1 }

/-- Snapshot with all four wheels off the track (claim C5's witness input). -/
def cexC5 : Params := { baseParams with all_wheels_on_track := false }

/-! ### Helper lemmas -/

/-- `chk_exception` ignores the incoming score on both branches. -/
theorem chk_exception_ignores_score (s t : ℚ) (b : Bool) :
    RewardClass.chk_exception s b = RewardClass.chk_exception t b := rfl

/-- `is_speed_up` is multiplicative: it scales the incoming score by
`speed_factor`. -/
theorem is_speed_up_eq (a2d : ℚ → ℚ → ℚ) (r : ℚ) (w : List (ℚ × ℚ))
    (c : ℕ × ℕ) (sp : ℚ) (m f : ℕ) :
    RewardClass.is_speed_up a2d r w c sp m f = r * speed_factor a2d w c sp m f := by
  simp only [RewardClass.is_speed_up, speed_factor]
  split_ifs <;> simp

/-- `chk_is_left_of_center` is multiplicative with factor `left_factor`. -/
theorem chk_is_left_of_center_eq (r : ℚ) (b : Bool) :
    RewardClass.chk_is_left_of_center r b = r * left_factor b := by
  simp only [RewardClass.chk_is_left_of_center, left_factor]
  split_ifs <;> rfl

/-- `chk_progress` is multiplicative with factor `progress_factor`. -/
theorem chk_progress_eq (r pr : ℚ) :
    RewardClass.chk_progress r pr = r * progress_factor pr := by
  simp only [RewardClass.chk_progress, progress_factor]
  split_ifs <;> simp

/-- The composed chain factors as the center-distance stage applied to the
exception-chain value, times the three trailing multiplicative factors. -/
theorem reward_function_factor (a2d : ℚ → ℚ → ℚ) (p : Params) :
    reward_function a2d p =
      RewardClass.chk_center_distance
          (RewardClass.chk_exception DEFAULT_REWARD p.is_reversed)
          p.track_width p.distance_from_center
        * speed_factor a2d p.waypoints p.closest_waypoints p.speed 3 8
        * left_factor p.is_left_of_center
        * progress_factor p.progress := by
  simp only [reward_function, is_speed_up_eq, chk_is_left_of_center_eq, chk_progress_eq]
  rfl

/-- `speed_factor` is at least `1`. -/
theorem speed_factor_ge_one (a2d : ℚ → ℚ → ℚ) (w : List (ℚ × ℚ)) (c : ℕ × ℕ)
    (sp : ℚ) (m f : ℕ) : 1 ≤ speed_factor a2d w c sp m f := by
  unfold speed_factor
  split_ifs <;> norm_num [REINFORCE_FACTOR_4, REINFORCE_FACTOR_1]

/-- `left_factor` is at least `4/5`. -/
theorem left_factor_ge (b : Bool) : 4 / 5 ≤ left_factor b := by
  cases b <;> norm_num [left_factor, REINFORCE_FACTOR_1, PUNISH_FACTOR_1]

/-- `progress_factor` is at least `1`. -/
theorem progress_factor_ge_one (pr : ℚ) : 1 ≤ progress_factor pr := by
  unfold progress_factor
  split_ifs <;> norm_num [REINFORCE_FACTOR_3]

/-- The exception stage always outputs at least the floor. -/
theorem chk_exception_ge (s : ℚ) (b : Bool) :
    1 / 1000 ≤ RewardClass.chk_exception s b := by
  cases b <;> norm_num [RewardClass.chk_exception, LOWEST_REWARD, DEFAULT_REWARD]

/-- If the incoming score is at least the floor `1/1000`, the center-distance
stage outputs at least `1/2000` (the worst case is the third band, which
halves the score). -/
theorem chk_center_distance_ge (s w d : ℚ) (h : 1 / 1000 ≤ s) :
    1 / 2000 ≤ RewardClass.chk_center_distance s w d := by
  simp only [RewardClass.chk_center_distance, REINFORCE_FACTOR_1, PUNISH_FACTOR_1,
    PUNISH_FACTOR_2, LOWEST_REWARD]
  split_ifs <;> linarith

/-- With the incoming score fixed to `DEFAULT_REWARD`, the center-distance
stage is antitone in the distance: the band outputs `1.2, 0.8, 0.5, 1e-3`
are decreasing and a larger distance can only land in a later band. -/
theorem chk_center_antitone (w d₁ d₂ : ℚ) (h : d₁ ≤ d₂) :
    RewardClass.chk_center_distance DEFAULT_REWARD w d₂
      ≤ RewardClass.chk_center_distance DEFAULT_REWARD w d₁ := by
  simp only [RewardClass.chk_center_distance, DEFAULT_REWARD, LOWEST_REWARD,
    REINFORCE_FACTOR_1, PUNISH_FACTOR_1, PUNISH_FACTOR_2]
  split_ifs <;> linarith

/-! ### Claim theorems -/

/-- C2: for every incoming score, `chk_exception` returns `LOWEST_REWARD`
when the hazard flag is true and `DEFAULT_REWARD` when it is false — in
particular a false flag resets the running score to the default instead of
leaving it unchanged, discarding any earlier multiplicative adjustments. -/
theorem C2_chk_exception_contract (s : ℚ) :
    RewardClass.chk_exception s true = LOWEST_REWARD ∧
    RewardClass.chk_exception s false = DEFAULT_REWARD :=
  ⟨rfl, rfl⟩

/-- C5: for every snapshot with `all_wheels_on_track = false`, the running
score right after the on-track evaluator is exactly the floor
`LOWEST_REWARD` (hence at most the floor-adjacent low value), and — the
"modulo subsequent exception overrides" part of the claim — the final reward
coincides with the rest of the chain applied to the exception-overridden
score, whatever score (`s`) entered the exception chain. -/
theorem C5_on_track_floor (a2d : ℚ → ℚ → ℚ) (p : Params) (s : ℚ)
    (h : p.all_wheels_on_track = false) :
    RewardClass.chk_on_track DEFAULT_REWARD p.all_wheels_on_track = LOWEST_REWARD ∧
    reward_function a2d p =
      RewardClass.chk_progress
        (RewardClass.chk_is_left_of_center
          (RewardClass.is_speed_up a2d
            (RewardClass.chk_center_distance
              (RewardClass.chk_exception
                (RewardClass.chk_exception
                  (RewardClass.chk_exception s p.is_offtrack)
                  p.is_crashed)
                p.is_reversed)
              p.track_width p.distance_from_center)
            p.waypoints p.closest_waypoints p.speed 3 8)
          p.is_left_of_center)
        p.progress := by
  exact ⟨by rw [h]; rfl, rfl⟩

/-- Witness for C5 at the concrete snapshot `cexC5` (all wheels off the
track), with the exception chain entered at score `0`. -/
theorem C5_witness :
    cexC5.all_wheels_on_track = false ∧
    (RewardClass.chk_on_track DEFAULT_REWARD cexC5.all_wheels_on_track = LOWEST_REWARD ∧
     reward_function a2dZero cexC5 =
       RewardClass.chk_progress
         (RewardClass.chk_is_left_of_center
           (RewardClass.is_speed_up a2dZero
             (RewardClass.chk_center_distance
               (RewardClass.chk_exception
                 (RewardClass.chk_exception
                   (RewardClass.chk_exception 0 cexC5.is_offtrack)
                   cexC5.is_crashed)
                 cexC5.is_reversed)
               cexC5.track_width cexC5.distance_from_center)
             cexC5.waypoints cexC5.closest_waypoints cexC5.speed 3 8)
           cexC5.is_left_of_center)
         cexC5.progress) :=
  ⟨rfl, C5_on_track_floor a2dZero cexC5 0 rfl⟩

/-- C7: the band boundaries of `chk_center_distance` are inclusive — for
every positive `track_width` and every incoming score, a distance exactly
equal to `0.5 * track_width` lands in the third in-band case (score
multiplied by `PUNISH_FACTOR_2`), not in the beyond-band `LOWEST_REWARD`
floor. -/
theorem C7_boundary_inclusive (s w : ℚ) (hw : 0 < w) :
    RewardClass.chk_center_distance s w (5 / 10 * w) = s * PUNISH_FACTOR_2 := by
  simp only [RewardClass.chk_center_distance]
  split_ifs <;> first | rfl | linarith

/-- Witness for C7 at `track_width = 1`, incoming score `1`. -/
theorem C7_witness :
    0 < (1 : ℚ) ∧
    RewardClass.chk_center_distance 1 1 (5 / 10 * 1) = 1 * PUNISH_FACTOR_2 :=
  ⟨by norm_num, C7_boundary_inclusive 1 1 (by norm_num)⟩

/-- C9: the reward is independent of `all_wheels_on_track`, `is_offtrack`
and `is_crashed`: two snapshots differing only in those three flags get the
same reward, because `chk_on_track` and `chk_exception` ignore their
incoming score, so each of those checks is overwritten by the next one in
the chain (only `is_reversed`, the last exception check, survives). -/
theorem C9_independent_of_overwritten_flags (a2d : ℚ → ℚ → ℚ) (p : Params)
    (b₁ b₂ b₃ : Bool) :
    reward_function a2d
      { p with all_wheels_on_track := b₁, is_offtrack := b₂, is_crashed := b₃ } =
    reward_function a2d p := rfl

/-- C10: the reward is independent of `heading` and `steering_angle`: the
evaluators `chk_direction`, `chk_straight_line`, `chk_steering` and
`chk_steering_rate` are defined but never invoked by `reward_function`, and
no invoked evaluator reads either field, so two snapshots differing only in
those two fields get the same reward. -/
theorem C10_independent_of_heading_steering (a2d : ℚ → ℚ → ℚ) (p : Params)
    (h θ : ℚ) :
    reward_function a2d { p with heading := h, steering_angle := θ } =
    reward_function a2d p := rfl

/-- Arithmetic helper: lower bound for the factored chain. -/
theorem chain_product_lower (c sf lf pf : ℚ) (hc : 1 / 2000 ≤ c) (hsf : 1 ≤ sf)
    (hlf : 4 / 5 ≤ lf) (hpf : 1 ≤ pf) : 1 / 2500 ≤ c * sf * lf * pf := by
  have h0 : (0 : ℚ) ≤ c := by linarith
  have h1 : 1 / 2000 ≤ c * sf := le_trans hc (le_mul_of_one_le_right h0 hsf)
  have h2 : (0 : ℚ) ≤ c * sf := by linarith
  have h3 : 1 / 2500 ≤ c * sf * lf := by
    calc (1 / 2500 : ℚ) = 1 / 2000 * (4 / 5) := by norm_num
    _ ≤ c * sf * (4 / 5) := by linarith
    _ ≤ c * sf * lf := mul_le_mul_of_nonneg_left hlf h2
  have h4 : (0 : ℚ) ≤ c * sf * lf := by linarith
  exact le_trans h3 (le_mul_of_one_le_right h4 hpf)

/-- C1 (refuted): the claim says a true `is_offtrack` forces the returned
reward to be exactly `LOWEST_REWARD` regardless of every other field.  On
the snapshot `cexC1` (`is_offtrack = true`, otherwise hazard-free, centered,
`speed = 2`) the code instead returns `24/25`: the subsequent
`chk_exception` calls for `is_crashed` and `is_reversed` (both false) reset
the score to `DEFAULT_REWARD`, discarding the off-track floor, and the later
multiplicative stages then adjust it. -/
theorem C1_offtrack_not_floor :
    cexC1.is_offtrack = true ∧
    reward_function a2dZero cexC1 = 24 / 25 ∧ (24 / 25 : ℚ) ≠ LOWEST_REWARD := by
  refine ⟨rfl, ?_, by norm_num [LOWEST_REWARD]⟩
  norm_num [reward_function, RewardClass.chk_on_track, RewardClass.chk_exception,
    RewardClass.chk_center_distance, RewardClass.is_speed_up, RewardClass.speed_up_flag,
    RewardClass.chk_is_left_of_center, RewardClass.chk_progress,
    cexC1, baseParams, cexWaypoints, a2dZero,
    DEFAULT_REWARD, LOWEST_REWARD, DIRECTION_THRESHOLD,
    REINFORCE_FACTOR_1, REINFORCE_FACTOR_3, REINFORCE_FACTOR_4,
    PUNISH_FACTOR_1, PUNISH_FACTOR_2, PROGRESS_THRESHOLD, List.getD]

/-- C3 (refuted as stated): a snapshot satisfying the input invariants
(`0 ≤ distance_from_center`, `0 < track_width`, `0 ≤ speed`, valid waypoint
indices) on which the reward is `1/2500`, strictly below the claimed lower
bound `LOWEST_REWARD`: with `is_reversed = true` the exception chain outputs
the floor `1e-3`, the third center-distance band then halves it and the
not-left-of-center stage multiplies by `0.8`. -/
theorem C3_below_floor_cex :
    0 ≤ cexC3.distance_from_center ∧ 0 < cexC3.track_width ∧ 0 ≤ cexC3.speed ∧
    reward_function a2dZero cexC3 = 1 / 2500 ∧ (1 / 2500 : ℚ) < LOWEST_REWARD := by
  refine ⟨by norm_num [cexC3, baseParams], by norm_num [cexC3, baseParams],
    by norm_num [cexC3, baseParams], ?_, by norm_num [LOWEST_REWARD]⟩
  norm_num [reward_function, RewardClass.chk_on_track, RewardClass.chk_exception,
    RewardClass.chk_center_distance, RewardClass.is_speed_up, RewardClass.speed_up_flag,
    RewardClass.chk_is_left_of_center, RewardClass.chk_progress,
    cexC3, baseParams, cexWaypoints, a2dZero,
    DEFAULT_REWARD, LOWEST_REWARD, DIRECTION_THRESHOLD,
    REINFORCE_FACTOR_1, REINFORCE_FACTOR_3, REINFORCE_FACTOR_4,
    PUNISH_FACTOR_1, PUNISH_FACTOR_2, PROGRESS_THRESHOLD, List.getD]

/-- C3 (amended): for every snapshot and every bearing function the returned
reward is finite, positive, and bounded below by
`LOWEST_REWARD * PUNISH_FACTOR_2 * PUNISH_FACTOR_1 = 1/2500` (a bound that
`C3_below_floor_cex` shows is attained); the claimed bound `LOWEST_REWARD`
itself does not hold. -/
theorem C3_lower_bound (a2d : ℚ → ℚ → ℚ) (p : Params) :
    1 / 2500 ≤ reward_function a2d p := by
  rw [reward_function_factor]
  exact chain_product_lower _ _ _ _
    (chk_center_distance_ge _ _ _ (chk_exception_ge _ _))
    (speed_factor_ge_one a2d p.waypoints p.closest_waypoints p.speed 3 8)
    (left_factor_ge p.is_left_of_center)
    (progress_factor_ge_one p.progress)

/-- C4 (refuted on the code): the first comparison against
`DIRECTION_THRESHOLD` in the classification uses the raw, un-normalized
bearing difference (line 116 tests `difference`, not the `diff` normalized
on line 114).  With bearings `179°` and `-177°` (raw difference `356`,
normalized difference `4 < 8`) and a short look-ahead span, the code
classifies "do not speed up", while the always-normalized classification the
claim describes (`speed_up_flag_normalized`) classifies "speed up". -/
theorem C4_first_test_unnormalized :
    RewardClass.speed_up_flag a2dC4 cexWaypoints (0, 1) 3 8 = false ∧
    speed_up_flag_normalized a2dC4 cexWaypoints (0, 1) 3 8 = true := by
  constructor
  · norm_num [RewardClass.speed_up_flag, a2dC4, cexWaypoints, DIRECTION_THRESHOLD,
      List.getD]
  · norm_num [speed_up_flag_normalized, a2dC4, cexWaypoints, DIRECTION_THRESHOLD,
      List.getD]

/-- C6 (refuted as stated): two snapshots identical except for
`distance_from_center` (`0.4` versus `0.6`, `is_reversed = true`) on which
the reward strictly increases with distance: the beyond-band branch SETS the
score to `LOWEST_REWARD = 1e-3`, which is larger than the third band's
halved floor `5e-4`. -/
theorem C6_not_monotone_cex :
    cexC6b = { cexC6a with distance_from_center := 6 / 10 } ∧
    cexC6a.distance_from_center ≤ cexC6b.distance_from_center ∧
    reward_function a2dZero cexC6a < reward_function a2dZero cexC6b := by
  refine ⟨rfl, by norm_num [cexC6a, cexC6b, baseParams], ?_⟩
  norm_num [reward_function, RewardClass.chk_on_track, RewardClass.chk_exception,
    RewardClass.chk_center_distance, RewardClass.is_speed_up, RewardClass.speed_up_flag,
    RewardClass.chk_is_left_of_center, RewardClass.chk_progress,
    cexC6a, cexC6b, baseParams, cexWaypoints, a2dZero,
    DEFAULT_REWARD, LOWEST_REWARD, DIRECTION_THRESHOLD,
    REINFORCE_FACTOR_1, REINFORCE_FACTOR_3, REINFORCE_FACTOR_4,
    PUNISH_FACTOR_1, PUNISH_FACTOR_2, PROGRESS_THRESHOLD, List.getD]

/-- C6 (amended): the monotonicity holds whenever `is_reversed = false`
(so the score entering the center-distance stage is `DEFAULT_REWARD`):
holding every other field fixed, the reward is non-increasing in
`distance_from_center`; in particular with `track_width = 1` the rewards at
distances `0.05, 0.2, 0.4, 0.6` form a non-increasing sequence. -/
theorem C6_monotone_not_reversed (a2d : ℚ → ℚ → ℚ) (p : Params) (d₁ d₂ : ℚ)
    (hrev : p.is_reversed = false) (hd : d₁ ≤ d₂) :
    reward_function a2d { p with distance_from_center := d₂ }
      ≤ reward_function a2d { p with distance_from_center := d₁ } := by
  rw [reward_function_factor, reward_function_factor]
  dsimp only
  rw [hrev]
  have h1 : RewardClass.chk_exception DEFAULT_REWARD false = DEFAULT_REWARD := rfl
  rw [h1]
  have hmono := chk_center_antitone p.track_width d₁ d₂ hd
  have hsf := speed_factor_ge_one a2d p.waypoints p.closest_waypoints p.speed 3 8
  have hlf := left_factor_ge p.is_left_of_center
  have hpf := progress_factor_ge_one p.progress
  have hsf0 : (0 : ℚ) ≤ speed_factor a2d p.waypoints p.closest_waypoints p.speed 3 8 := by
    linarith
  have hlf0 : (0 : ℚ) ≤ left_factor p.is_left_of_center := by linarith
  have hpf0 : (0 : ℚ) ≤ progress_factor p.progress := by linarith
  exact mul_le_mul_of_nonneg_right
    (mul_le_mul_of_nonneg_right (mul_le_mul_of_nonneg_right hmono hsf0) hlf0) hpf0

/-- Witness for C6 (amended) on `baseParams` at distances `0.05 ≤ 0.2`. -/
theorem C6_witness :
    baseParams.is_reversed = false ∧ (1 / 20 : ℚ) ≤ 2 / 10 ∧
    reward_function a2dZero { baseParams with distance_from_center := 2 / 10 }
      ≤ reward_function a2dZero { baseParams with distance_from_center := 1 / 20 } :=
  ⟨rfl, by norm_num,
    C6_monotone_not_reversed a2dZero baseParams (1 / 20) (2 / 10) rfl (by norm_num)⟩

/-- C8 (refuted as stated): with `track_width = 0` the code does not signal
any error: the band markers are multiplications (`0.1 * width` and so on),
no division occurs, and `reward_function` silently returns an ordinary
reward (`1/1250` on `cexC8`). -/
theorem C8_silent_reward_cex :
    cexC8.track_width = 0 ∧ reward_function a2dZero cexC8 = 1 / 1250 := by
  refine ⟨rfl, ?_⟩
  norm_num [reward_function, RewardClass.chk_on_track, RewardClass.chk_exception,
    RewardClass.chk_center_distance, RewardClass.is_speed_up, RewardClass.speed_up_flag,
    RewardClass.chk_is_left_of_center, RewardClass.chk_progress,
    cexC8, baseParams, cexWaypoints, a2dZero,
    DEFAULT_REWARD, LOWEST_REWARD, DIRECTION_THRESHOLD,
    REINFORCE_FACTOR_1, REINFORCE_FACTOR_3, REINFORCE_FACTOR_4,
    PUNISH_FACTOR_1, PUNISH_FACTOR_2, PROGRESS_THRESHOLD, List.getD]

/-- C8 (amended): for every snapshot with `track_width = 0` and a positive
center distance, `reward_function` silently computes and returns a reward —
all band markers collapse to `0`, the distance falls beyond the outermost
band, and the result is the floor `LOWEST_REWARD` times the trailing
multiplicative factors.  No `ConfigurationError`-equivalent exists in the
code. -/
theorem C8_zero_width_silent (a2d : ℚ → ℚ → ℚ) (p : Params)
    (hw : p.track_width = 0) (hd : 0 < p.distance_from_center) :
    reward_function a2d p =
      LOWEST_REWARD * speed_factor a2d p.waypoints p.closest_waypoints p.speed 3 8
        * left_factor p.is_left_of_center * progress_factor p.progress := by
  rw [reward_function_factor, hw]
  have hcenter : RewardClass.chk_center_distance
      (RewardClass.chk_exception DEFAULT_REWARD p.is_reversed) 0
      p.distance_from_center = LOWEST_REWARD := by
    simp only [RewardClass.chk_center_distance]
    split_ifs <;> first | rfl | linarith
  rw [hcenter]

/-- Witness for C8 (amended) at the concrete snapshot `cexC8`. -/
theorem C8_witness :
    cexC8.track_width = 0 ∧ 0 < cexC8.distance_from_center ∧
    reward_function a2dZero cexC8 =
      LOWEST_REWARD
        * speed_factor a2dZero cexC8.waypoints cexC8.closest_waypoints cexC8.speed 3 8
        * left_factor cexC8.is_left_of_center * progress_factor cexC8.progress :=
  ⟨rfl, by norm_num [cexC8, baseParams],
    C8_zero_width_silent a2dZero cexC8 rfl (by norm_num [cexC8, baseParams])⟩
